import Mathlib

/-!
Shallow embedding of the multi-channel CV ingestion pipeline of the
recruitment application (source files: cv_parser.py, email_bot.py,
whatsapp_bot.py, models.py) together with proofs checking the
natural-language specification claims against it.

Conventions of the embedding:
* Python/JSON values are modelled by `JValue`; Python `None` and JSON
  `null` are the same value (`JValue.null`), exactly as in `json.loads`.
* Python dicts are association lists in insertion order (`JObj`);
  `dict.get` with and without a default are `dgetD` and `dget`.
* External effects (file reads, the AI completion service, media
  download, werkzeug's `secure_filename`, clock) are inputs to the
  embedded functions; the functions themselves are the translation of
  the Python control flow over those inputs.
* Machine behaviour that can raise (file reads, database flush/commit)
  is made explicit with result types or success flags.
-/

/-- JSON values as produced by `json.loads`. Python `None` and JSON `null`
coincide (`null`). Numbers keep Python's int/float distinction; floats are
modelled as exact rationals, which faithfully represent JSON decimal
literals. -/
inductive JValue where
  | null
  | bool (b : Bool)
  | int (n : Int)
  | float (q : ℚ)
  | str (s : String)
  | arr (xs : List JValue)
  | obj (fields : List (String × JValue))

mutual

/-- Structural equality on JSON values (used to model SQL `=` comparisons
in `filter_by` queries and the UNIQUE constraint check). -/
def JValue.beq : JValue → JValue → Bool
  | .null, .null => true
  | .bool a, .bool b => a == b
  | .int a, .int b => a == b
  | .float a, .float b => a == b
  | .str a, .str b => a == b
  | .arr a, .arr b => JValue.beqList a b
  | .obj a, .obj b => JValue.beqFields a b
  | _, _ => false

/-- Pointwise `JValue.beq` on lists. -/
def JValue.beqList : List JValue → List JValue → Bool
  | [], [] => true
  | x :: xs, y :: ys => JValue.beq x y && JValue.beqList xs ys
  | _, _ => false

/-- Pointwise `JValue.beq` on object fields. -/
def JValue.beqFields : List (String × JValue) → List (String × JValue) → Bool
  | [], [] => true
  | (k1, v1) :: xs, (k2, v2) :: ys => k1 == k2 && JValue.beq v1 v2 && JValue.beqFields xs ys
  | _, _ => false

end

/-- Python truthiness of a JSON value (`bool(x)`). -/
def JValue.truthy : JValue → Bool
  | .null => false
  | .bool b => b
  | .int n => n != 0
  | .float q => q != 0
  | .str s => s != ""
  | .arr xs => !xs.isEmpty
  | .obj fs => !fs.isEmpty

/-- Python `isinstance(x, str)`. -/
def JValue.isStr : JValue → Bool
  | .str _ => true
  | _ => false

/-- Python `isinstance(x, int)`; note `bool` is a subclass of `int` in
Python, so JSON booleans satisfy it. -/
def JValue.isInt : JValue → Bool
  | .int _ => true
  | .bool _ => true
  | _ => false

/-- Python `isinstance(x, list)`. -/
def JValue.isList : JValue → Bool
  | .arr _ => true
  | _ => false

/-- A Python dict with string keys, in insertion order. -/
abbrev JObj := List (String × JValue)

/-- Raw lookup: `some v` when the key is present (even with value `null`),
`none` when the key is absent. -/
def jget (o : JObj) (k : String) : Option JValue :=
  match o.find? (fun kv => kv.1 == k) with
  | some kv => some kv.2
  | none => none

/-- Python `d.get(k)`: the stored value, or `None` when absent.  A stored
JSON `null` and an absent key both come back as `null`, exactly as both
come back as `None` in Python. -/
def dget (o : JObj) (k : String) : JValue :=
  (jget o k).getD .null

/-- Python `d.get(k, default)`: the stored value when the key is present
(even when that value is `null`), the default only when the key is
absent. -/
def dgetD (o : JObj) (k : String) (d : JValue) : JValue :=
  (jget o k).getD d

/-- Python `d[k] = v`: replace in place when present, append when new. -/
def jset : JObj → String → JValue → JObj
  | [], k, v => [(k, v)]
  | (k1, v1) :: rest, k, v =>
      if k1 == k then (k, v) :: rest else (k1, v1) :: jset rest k v

/-- Bool-valued infix test on character lists. -/
def listInfix (needle : List Char) : List Char → Bool
  | [] => needle.isEmpty
  | c :: rest => needle.isPrefixOf (c :: rest) || listInfix needle rest

/-- Python `needle in hay` for strings. -/
def strContains (hay needle : String) : Bool :=
  listInfix needle.toList hay.toList

/-- Characterwise ASCII lowercasing (Python `str.lower` on the ASCII
range, which is all the source compares). -/
def strLower (s : String) : String := String.mk (s.toList.map Char.toLower)

/-- Whitespace stripping on a character list (Python `str.strip()`). -/
def listTrim (cs : List Char) : List Char :=
  ((cs.dropWhile Char.isWhitespace).reverse.dropWhile Char.isWhitespace).reverse

/-- Python `str.strip()`. -/
def strTrim (s : String) : String := String.mk (listTrim s.toList)

/-- Python `str.split(sep)` for a one-character separator. -/
def splitOnChar (sep : Char) : List Char → List (List Char)
  | [] => [[]]
  | c :: rest =>
      if c = sep then [] :: splitOnChar sep rest
      else
        match splitOnChar sep rest with
        | [] => [[c]]
        | w :: ws => (c :: w) :: ws

/-- Helper of `pyWords`: accumulate the current word (reversed). -/
def pyWordsAux : List Char → List Char → List (List Char)
  | cur, [] => if cur.isEmpty then [] else [cur.reverse]
  | cur, c :: rest =>
      if c.isWhitespace then
        if cur.isEmpty then pyWordsAux [] rest
        else cur.reverse :: pyWordsAux [] rest
      else pyWordsAux (c :: cur) rest

/-- Python `str.split()` with no argument: maximal nonempty runs of
non-whitespace characters. -/
def pyWords (cs : List Char) : List (List Char) := pyWordsAux [] cs

/-- Leading maximal run of decimal digits converted to a number. -/
def digitsToNat (cs : List Char) : Nat :=
  cs.foldl (fun acc c => 10 * acc + (c.toNat - 48)) 0

/-- Python `re.search(r"\d+", s)` followed by `int(...)`: the first
(leftmost, maximal) run of decimal digits in `s`, if any. -/
def firstIntSubstring : List Char → Option Nat
  | [] => none
  | c :: rest =>
      if c.isDigit then some (digitsToNat (c :: rest.takeWhile Char.isDigit))
      else firstIntSubstring rest

/-! ## Document text extraction (cv_parser.py, lines 21-87)

Each extractor body runs inside `try`/`except`; the steps that can raise
(library file reads) are modelled as per-file outcomes in `FileEnv`.  The
return type `PyResult String` makes raising explicit: `.ok` is a normal
return, `.exn` would be an exception escaping to the caller. -/

/-- A Python exception, distinguishing `UnicodeDecodeError` (which
`extract_text_from_txt` handles separately) from everything else. -/
inductive PyExn where
  | unicodeDecodeError
  | other (msg : String)
deriving DecidableEq

/-- Outcome of running a piece of Python code: normal return or a raised
exception. -/
inductive PyResult (α : Type) where
  | ok (a : α)
  | exn (e : PyExn)
deriving DecidableEq

/-- Environment behaviour for one file path: whether the path exists and
what each underlying library read does there (returning page texts,
paragraph texts or raw text, or raising).  A zero-byte or corrupt file is
an environment in which the corresponding read raises. -/
structure FileEnv where
  path_exists : Bool
  pdf_read : PyResult (List String)
  docx_read : PyResult (List String)
  txt_utf8 : PyResult String
  txt_latin1 : PyResult String

/-- cv_parser.extract_text_from_pdf: concatenate `page.extract_text() + "\n"`
over the pages, strip, and turn any exception into `""`. -/
def extract_text_from_pdf (env : FileEnv) : PyResult String :=
  match env.pdf_read with
  | .ok pages => .ok (strTrim (pages.foldl (fun text p => text ++ p ++ "\n") ""))
  | .exn _ => .ok ""

/-- cv_parser.extract_text_from_docx: concatenate `paragraph.text + "\n"`,
strip, and turn any exception into `""`. -/
def extract_text_from_docx (env : FileEnv) : PyResult String :=
  match env.docx_read with
  | .ok paras => .ok (strTrim (paras.foldl (fun text p => text ++ p ++ "\n") ""))
  | .exn _ => .ok ""

/-- cv_parser.extract_text_from_txt: read as UTF-8; on
`UnicodeDecodeError` retry as Latin-1 (whose inner `except Exception`
returns `""`); any other exception returns `""`. -/
def extract_text_from_txt (env : FileEnv) : PyResult String :=
  match env.txt_utf8 with
  | .ok s => .ok (strTrim s)
  | .exn .unicodeDecodeError =>
      match env.txt_latin1 with
      | .ok s => .ok (strTrim s)
      | .exn _ => .ok ""
  | .exn (.other _) => .ok ""

/-- os.path.splitext(filepath)[1]: extension of the basename from its last
dot; leading dots of the basename do not start an extension. -/
def splitext_ext (filepath : String) : String :=
  let cs := (splitOnChar '/' filepath.toList).getLastD filepath.toList
  let lead := (cs.takeWhile (fun c => c = '.')).length
  let rest := cs.drop lead
  match (List.range rest.length).reverse.find?
      (fun i => (rest.drop i).head? = some '.') with
  | some i => String.mk (rest.drop i)
  | none => ""

/-- cv_parser.extract_text_from_file: dispatch on the lowercased
extension; missing path or unsupported format give `""` (logged only). -/
def extract_text_from_file (filepath : String) (env : FileEnv) : PyResult String :=
  if !env.path_exists then .ok ""
  else
    let file_extension := strLower (splitext_ext filepath)
    if file_extension = ".pdf" then extract_text_from_pdf env
    else if file_extension = ".docx" then extract_text_from_docx env
    else if file_extension = ".txt" || file_extension = ".doc" then extract_text_from_txt env
    else .ok ""

/-! ## AI structured parser (cv_parser.py, lines 89-171) -/

/-- Outcome of the OpenAI call plus `json.loads`: `.failure` is any
exception up to and including JSON decoding (network error, bad response,
malformed JSON); `.success j` is the decoded JSON value, which the code
then treats as a dict. -/
inductive AIOutcome where
  | failure
  | success (j : JValue)

/-- Default profile returned by `parse_cv_with_ai`'s `except` block
(cv_parser.py lines 161-171). -/
def ai_default_profile : JObj :=
  [("name", .null), ("email", .null), ("phone", .null), ("location", .null),
   ("summary", .null), ("skills", .arr []), ("experience_years", .int 0),
   ("education", .arr []), ("work_experience", .arr [])]

/-- One `if not isinstance(result.get(k, []), list): result[k] = []` step:
a present non-list value is replaced by `[]`; an absent key stays absent
(the default `[]` already satisfies the isinstance check). -/
def ensure_list (o : JObj) (k : String) : JObj :=
  if (dgetD o k (.arr [])).isList then o else jset o k (.arr [])

/-- cv_parser.py lines 149-155: clean and validate experience years.
A truthy string gets its first integer substring (or 0); values that are
not `isinstance(..., int)` (absent, null, empty string, float, lists,
dicts) become 0; ints — and bools, which satisfy `isinstance(..., int)`
in Python — are kept. -/
def normalize_experience_years (o : JObj) : JObj :=
  match jget o "experience_years" with
  | some (.str s) =>
      if s ≠ "" then jset o "experience_years" (.int ((firstIntSubstring s.toList).getD 0))
      else jset o "experience_years" (.int 0)
  | some (.int _) => o
  | some (.bool _) => o
  | _ => jset o "experience_years" (.int 0)

/-- cv_parser.parse_cv_with_ai, given the service outcome.  On a decoded
JSON object the list fields and experience years are normalized in source
order; a decoded non-object makes the first `result.get` raise
`AttributeError`, which the surrounding `except` turns into the default
profile, as does any earlier failure. -/
def parse_cv_with_ai (outcome : AIOutcome) : JObj :=
  match outcome with
  | .success (.obj fields) =>
      normalize_experience_years
        (ensure_list (ensure_list (ensure_list fields "skills") "education") "work_experience")
  | .success _ => ai_default_profile
  | .failure => ai_default_profile

/-! ## Regex fallback field extraction (cv_parser.py, lines 173-198)

The two `re.search` calls are translated as explicit leftmost-match
scanners with the same character classes and the same greedy/backtracking
behaviour as the source patterns, including the `\b` anchors of the email
pattern.  Word characters are `[A-Za-z0-9_]`; Lean's `Char.isAlpha` /
`Char.isDigit` are the ASCII classes of the patterns. -/

/-- Membership in the regex word class `\w` = `[A-Za-z0-9_]`. -/
def isWordChar (c : Char) : Bool := c.isAlphanum || c = '_'

/-- Character class `[A-Za-z0-9._%+-]` (the email local part). -/
def isLocalChar (c : Char) : Bool :=
  c.isAlphanum || c = '.' || c = '_' || c = '%' || c = '+' || c = '-'

/-- Character class `[A-Za-z0-9.-]` (the email domain part). -/
def isDomChar (c : Char) : Bool := c.isAlphanum || c = '.' || c = '-'

/-- Character class `[A-Z|a-z]` of the fallback email pattern's TLD part
(the source class literally contains `|`). -/
def isTldChar (c : Char) : Bool := c.isAlpha || c = '|'

/-- Whether a `\b` word boundary holds between a previous character
(`none` = start of string) and the current one. -/
def boundaryAt (prev : Option Char) (c : Char) : Bool :=
  (match prev with | some p => isWordChar p | none => false) != isWordChar c

/-- Match the tail `\.[A-Z|a-z]{2,}\b` against the maximal domain run
`dom` (the char after the run is `after`, `none` at end of input).  The
greedy `[A-Za-z0-9.-]+` backtracks right to left over the possible dots;
at each dot the greedy TLD run must have length at least 2 and be
followed by a non-word character or the end (the trailing `\b`; shrinking
the TLD run can never restore a boundary inside a letter run). -/
def domainTailB (dom : List Char) (after : Option Char) : Option (List Char) :=
  (List.range dom.length).reverse.findSome? fun i =>
    if 1 ≤ i ∧ (dom.drop i).head? = some '.' then
      let tld := (dom.drop (i+1)).takeWhile isTldChar
      let nxt : Option Char :=
        match (dom.drop (i+1)).drop tld.length with
        | [] => after
        | c :: _ => some c
      if 2 ≤ tld.length ∧ (match nxt with | none => true | some c => !isWordChar c) = true
      then some (dom.take i ++ '.' :: tld)
      else none
    else none

/-- Leftmost match of `\b[A-Za-z0-9._%+-]+@[A-Za-z0-9.-]+\.[A-Z|a-z]{2,}\b`
(the fallback email pattern): at each position with a word boundary, the
greedy local run must be followed by `@` and a domain accepted by
`domainTailB`; otherwise the scan advances one character. -/
def findEmailB (prev : Option Char) : List Char → Option (List Char)
  | [] => none
  | c :: rest =>
      let here : Option (List Char) :=
        if boundaryAt prev c ∧ isLocalChar c then
          let lpart := (c :: rest).takeWhile isLocalChar
          match (c :: rest).drop lpart.length with
          | '@' :: rest2 =>
              let dom := rest2.takeWhile isDomChar
              ((domainTailB dom ((rest2.drop dom.length).head?)).map
                (fun d => lpart ++ '@' :: d))
          | _ => none
        else none
      match here with
      | some m => some m
      | none => findEmailB (some c) rest

/-- Character class `[\d\s\-\(\)]` of the fallback phone pattern.  Lean's
`Char.isWhitespace` covers space, tab, CR and LF (Python's `\s` also
matches the rare `\f`/`\v`). -/
def isPhoneChar (c : Char) : Bool :=
  c.isDigit || c.isWhitespace || c = '-' || c = '(' || c = ')'

/-- Leftmost match of `[\+]?[\d\s\-\(\)]{10,}`: at each position, an
optional leading `+` followed by a greedy run of at least 10 phone-class
characters (`+` itself is not in the class, so the two alternatives never
overlap). -/
def findPhone : List Char → Option (List Char)
  | [] => none
  | c :: rest =>
      if c = '+' then
        let run := rest.takeWhile isPhoneChar
        if 10 ≤ run.length then some ('+' :: run) else findPhone rest
      else
        let run := (c :: rest).takeWhile isPhoneChar
        if 10 ≤ run.length then some run else findPhone rest

/-- cv_parser.py lines 187-196: the first of the first five lines that is
nonempty after stripping, contains no digit, and has at least two
whitespace-separated words. -/
def potential_name (text : String) : Option String :=
  ((splitOnChar '\n' text.toList).take 5).findSome? fun l0 =>
    let line := listTrim l0
    if line ≠ [] ∧ !(line.any Char.isDigit) ∧ 2 ≤ (pyWords line).length
    then some (String.mk line) else none

/-- cv_parser.extract_basic_info_regex: best-effort email/phone/name from
raw text, `null` where nothing matches; keys in source insertion order. -/
def extract_basic_info_regex (text : String) : JObj :=
  let email : JValue :=
    match findEmailB none text.toList with
    | some m => .str (String.mk m)
    | none => .null
  let phone : JValue :=
    match findPhone text.toList with
    | some m => .str (String.mk (listTrim m))
    | none => .null
  let name : JValue :=
    match potential_name text with
    | some n => .str n
    | none => .null
  [("email", email), ("phone", phone), ("name", name)]

/-! ## CV parsing orchestrator (cv_parser.py, lines 200-243) -/

/-- Profile returned by `parse_cv_file` when no text could be extracted
(cv_parser.py lines 207-218), in source key order. -/
def empty_text_profile : JObj :=
  [("text", .str ""), ("name", .null), ("email", .null), ("phone", .null),
   ("location", .null), ("summary", .null), ("skills", .arr []),
   ("experience_years", .int 0), ("education", .arr []), ("work_experience", .arr [])]

/-- cv_parser.py lines 228-229: `if not cv_data.get('email') and
basic_info.get('email'): cv_data['email'] = basic_info['email']`. -/
def fallback_email (cv_data basic_info : JObj) : JObj :=
  if !(dget cv_data "email").truthy && (dget basic_info "email").truthy
  then jset cv_data "email" (dget basic_info "email") else cv_data

/-- cv_parser.py lines 231-232: the same guarded assignment for name. -/
def fallback_name (cv_data basic_info : JObj) : JObj :=
  if !(dget cv_data "name").truthy && (dget basic_info "name").truthy
  then jset cv_data "name" (dget basic_info "name") else cv_data

/-- cv_parser.py lines 234-235: the same guarded assignment for phone. -/
def fallback_phone (cv_data basic_info : JObj) : JObj :=
  if !(dget cv_data "phone").truthy && (dget basic_info "phone").truthy
  then jset cv_data "phone" (dget basic_info "phone") else cv_data

/-- cv_parser.py lines 228-235: the three fallback assignments in source
order — a field is filled only when its current value is falsy and the
regex fallback found something. -/
def fallback_fill (cv_data0 basic_info : JObj) : JObj :=
  fallback_phone (fallback_name (fallback_email cv_data0 basic_info) basic_info) basic_info

/-- cv_parser.parse_cv_file given the extracted text and the AI service
outcome: on empty text the fixed empty profile; otherwise the AI result
with the raw text attached, then the regex fallback filling only fields
whose current value is falsy (the `if not cv_data.get(...)` guards). -/
def parse_cv_file (cv_text : String) (ai : AIOutcome) : JObj :=
  if cv_text = "" then empty_text_profile
  else
    let cv_data := jset (parse_cv_with_ai ai) "text" (.str cv_text)
    if !(dget cv_data "email").truthy || !(dget cv_data "name").truthy then
      fallback_fill cv_data (extract_basic_info_regex cv_text)
    else cv_data

/-- cv_parser.parse_cv_text is an alias for parse_cv_file. -/
def parse_cv_text (cv_text : String) (ai : AIOutcome) : JObj :=
  parse_cv_file cv_text ai

/-! ## Sender parsing and eligibility (email_bot.py lines 41-63,
whatsapp_bot.py lines 84-95) -/

/-- Alternative `<(.+?)>` of the sender email pattern, tried at a
position: a `<` here, then the lazy group up to the first `>` (at least
one character, none of them a newline since `.` does not match `\n`). -/
def angleAt : List Char → Option (List Char)
  | '<' :: rest =>
      let content := rest.takeWhile (fun c => c ≠ '>' ∧ c ≠ '\n')
      if 1 ≤ content.length ∧ (rest.drop content.length).head? = some '>'
      then some content else none
  | _ => none

/-- Match the tail `\.[a-zA-Z]{2,}` (no trailing `\b` in this pattern)
against the maximal domain run: the greedy domain part backtracks to the
rightmost dot followed by at least two letters. -/
def domainTail (dom : List Char) : Option (List Char) :=
  (List.range dom.length).reverse.findSome? fun i =>
    if 1 ≤ i ∧ (dom.drop i).head? = some '.'
        ∧ 2 ≤ ((dom.drop (i+1)).takeWhile Char.isAlpha).length
    then some (dom.take i ++ '.' :: (dom.drop (i+1)).takeWhile Char.isAlpha)
    else none

/-- Alternative `([a-zA-Z0-9._%+-]+@[a-zA-Z0-9.-]+\.[a-zA-Z]{2,})` of the
sender email pattern, tried at a position (this pattern has no `\b`
anchors). -/
def emailCoreAt (cs : List Char) : Option (List Char) :=
  let lpart := cs.takeWhile isLocalChar
  if lpart.isEmpty then none
  else
    match cs.drop lpart.length with
    | '@' :: rest2 => (domainTail (rest2.takeWhile isDomChar)).map (fun d => lpart ++ '@' :: d)
    | _ => none

/-- Leftmost match of `<(.+?)>|([a-zA-Z0-9._%+-]+@...)`: at each position
the angle alternative is tried first, then the plain email alternative;
the result is group 1 if the first alternative matched, else group 2. -/
def senderEmailMatch : List Char → Option (List Char)
  | [] => none
  | c :: rest =>
      match angleAt (c :: rest) with
      | some g1 => some g1
      | none =>
          match emailCoreAt (c :: rest) with
          | some g2 => some g2
          | none => senderEmailMatch rest

/-- Tail test for the name pattern: zero or more whitespace characters
followed by `<` (backtracking inside `\s*` cannot move the `<`, since `<`
is not whitespace). -/
def wsThenLt : List Char → Bool
  | [] => false
  | c :: rest => if c = '<' then true else if c.isWhitespace then wsThenLt rest else false

/-- Lazy group of `^(.+?)\s*<`: the shortest nonempty newline-free prefix
followed by optional whitespace and a `<`. -/
def nameMatchAux (acc : List Char) : List Char → Option (List Char)
  | [] => none
  | c :: rest =>
      if c = '\n' then none
      else if wsThenLt rest then some (acc ++ [c])
      else nameMatchAux (acc ++ [c]) rest

/-- email_bot.EmailBot.extract_email_info: name and address from a sender
string such as `John Doe <john@example.com>` or a bare address.  With no
email match the whole sender string is used as the address; with no name
match the part of the address before `@` is used as the name. -/
def extract_email_info (sender : String) : String × String :=
  let email_addr : String :=
    match senderEmailMatch sender.toList with
    | some m => String.mk m
    | none => sender
  let name : String :=
    match nameMatchAux [] sender.toList with
    | some g => String.mk (listTrim g)
    | none => String.mk (email_addr.toList.takeWhile (fun c => c ≠ '@'))
  (name, email_addr)

namespace EmailBot

/-- EU country calling codes checked by the email bot (with `+`). -/
def eu_codes : List String :=
  ["+44", "+49", "+33", "+39", "+34", "+31", "+32", "+48", "+43", "+45", "+46", "+47", "+41"]

/-- email_bot.EmailBot.is_eu_phone_number: whether the text contains any
allow-listed `+`-prefixed calling code as a substring. -/
def is_eu_phone_number (text : String) : Bool :=
  eu_codes.any (fun code => strContains text code)

end EmailBot

namespace WhatsAppBot

/-- EU country calling codes checked by the WhatsApp bot (without `+`). -/
def eu_codes : List String :=
  ["44", "49", "33", "39", "34", "31", "32", "48", "43", "45", "46", "47", "41"]

/-- whatsapp_bot.WhatsAppBot.is_eu_phone_number: strip every `+`, space
and dash, then test whether the cleaned number starts with an allow-listed
calling code. -/
def is_eu_phone_number (phone_number : String) : Bool :=
  let clean_phone := phone_number.toList.filter (fun c => c ≠ '+' ∧ c ≠ ' ' ∧ c ≠ '-')
  eu_codes.any (fun code => code.toList.isPrefixOf clean_phone)

end WhatsAppBot

/-! ## Persistent data model (models.py)

Only the columns the handlers touch are modelled.  Column values coming
from parsed profiles are `JValue` (they can be JSON null, which SQLAlchemy
turns into SQL NULL); `models.py` declares `Candidate.email` UNIQUE and
NOT NULL and `Candidate.name` NOT NULL, which the database enforces at
flush/commit time. -/

/-- models.Candidate (one row). -/
structure CandidateRec where
  id : Nat
  name : JValue
  email : JValue
  phone : JValue
  location : JValue
  cv_filename : JValue
  cv_text : JValue
  skills : JValue
  experience_years : JValue
  education : JValue
  work_experience : JValue
  summary : JValue
  source : String
  source_reference : String
  last_updated : Nat

/-- models.EmailLog (one row): the email channel's processing ledger. -/
structure EmailLogRec where
  sender_email : String
  subject : String
  candidate_id : Option Nat
  status : String
deriving DecidableEq

/-- models.WhatsAppLog (one row): the chat channel's processing ledger. -/
structure WhatsAppLogRec where
  phone_number : String
  message_id : String
  candidate_id : Option Nat
  status : String
deriving DecidableEq

/-- The database tables the two handlers read and write, plus the id
sequence for new candidates. -/
structure DB where
  candidates : List CandidateRec
  email_logs : List EmailLogRec
  whatsapp_logs : List WhatsAppLogRec
  next_id : Nat

/-- Pairwise distinctness of candidate emails (the UNIQUE constraint on
`Candidate.email`). -/
def emailsDistinct : List CandidateRec → Bool
  | [] => true
  | c :: cs => cs.all (fun d => !(JValue.beq c.email d.email)) && emailsDistinct cs

/-- The NOT NULL constraints on `Candidate.name` and `Candidate.email`. -/
def requiredNotNull (cs : List CandidateRec) : Bool :=
  cs.all (fun c => !(JValue.beq c.name .null) && !(JValue.beq c.email .null))

/-- Whether a database state satisfies the `models.py` constraints: this
is the check the backing database performs when a session is flushed or
committed; a violation raises `IntegrityError` at that point. -/
def dbValid (db : DB) : Bool :=
  emailsDistinct db.candidates && requiredNotNull db.candidates

/-- Outbound replies, one constructor per distinct message the bots send
(the message texts are fixed string literals in the source; the payload
is the recipient). -/
inductive Reply where
  | email_rejection (rcpt : String)
  | email_cv_request (rcpt : String)
  | email_confirmation (rcpt : String)
  | wa_rejection (rcpt : String)
  | wa_confirmation (rcpt : String)
  | wa_download_failed (rcpt : String)
  | wa_not_cv (rcpt : String)
  | wa_welcome (rcpt : String)
deriving DecidableEq

/-- Observable outcome of one handler invocation: the database snapshots
in commit order (each entry is the persisted state after one successful
`db.session.commit()`), the replies sent, the final committed state, and
whether an exception escaped the handler.  A snapshot earlier than the
last is exactly the durable state seen if processing stops before the
next commit. -/
structure Run where
  commits : List DB
  sent : List Reply
  final : DB
  raised : Bool

/-! ## Email channel handler (email_bot.py, EmailBot.process_email)

External behaviour entering the handler as inputs: the extracted
plain-text body and attachment filename list of the message (MIME
walking), werkzeug's `secure_filename`, the timestamp prefix, the
extracted CV text and AI outcome for the saved attachment, the
`FILTER_EU_ONLY` flag, and the `datetime.utcnow()` tick.

Database session semantics: attribute assignments and `session.add`
accumulate in the pending state; `flush`/`commit` validate the
constraints — a violation raises `IntegrityError`, after which the
session's transaction is poisoned, so the `except` block's own
`session.add` + `commit` of an `error` ledger entry raises
`PendingRollbackError` and nothing of it persists; the exception then
propagates to the caller (`check_emails` catches it per message). -/

/-- Configuration and environment inputs of one `process_email` call. -/
structure EmailEnv where
  filter_eu_only : Bool
  cv_text : String
  ai : AIOutcome
  ts : String
  sfn : String → String
  now : Nat

/-- The CV-extension allow-list shared by both bots
(email_bot.py line 72, whatsapp_bot.py line 139). -/
def cv_exts : List String := [".pdf", ".doc", ".docx", ".txt"]

/-- Whether a filename ends (lowercased) in an allow-listed CV
extension. -/
def isCVFilename (filename : String) : Bool :=
  cv_exts.any (fun ext => ext.toList.isSuffixOf (strLower filename).toList)

/-- email_bot.EmailBot.extract_cv_attachments: keep CV-like filenames
(tested on the original name) and store them secured. -/
def extract_cv_attachments (sfn : String → String) (filenames : List String) : List String :=
  (filenames.filter isCVFilename).map sfn

/-- email_bot.py lines 206-215: update of an existing candidate from a
new profile — only CV-derived columns and the update timestamp are
assigned; name, phone and location are left untouched. -/
def email_merge_update (cand : CandidateRec) (cv_data : JObj) (cv_filename : String)
    (now : Nat) : CandidateRec :=
  { cand with
    cv_filename := .str cv_filename
    cv_text := dget cv_data "text"
    skills := dgetD cv_data "skills" (.arr [])
    experience_years := dget cv_data "experience_years"
    education := dgetD cv_data "education" (.arr [])
    work_experience := dgetD cv_data "work_experience" (.arr [])
    summary := dget cv_data "summary"
    last_updated := now }

/-- email_bot.py lines 218-232: the new Candidate constructed on the
create path.  `name` is `cv_data.get('name', sender_name)`: the sender
display name is the dict-get default, used only when the key is absent. -/
def email_new_candidate (id : Nat) (cv_data : JObj) (sender_name sender_email_clean : String)
    (cv_filename : String) (subject : String) (now : Nat) : CandidateRec :=
  { id := id
    name := dgetD cv_data "name" (.str sender_name)
    email := .str sender_email_clean
    phone := dget cv_data "phone"
    location := dget cv_data "location"
    cv_filename := .str cv_filename
    cv_text := dget cv_data "text"
    skills := dgetD cv_data "skills" (.arr [])
    experience_years := dget cv_data "experience_years"
    education := dgetD cv_data "education" (.arr [])
    work_experience := dgetD cv_data "work_experience" (.arr [])
    summary := dget cv_data "summary"
    source := "email"
    source_reference := subject
    last_updated := now }

/-- email_bot.EmailBot.process_email.  Control flow in source order:
dedup check on the raw `(sender_email, subject)` pair, sender parsing,
candidate lookup by cleaned address, optional EU filter over the body,
attachment extraction, the no-attachment/no-candidate request path, the
upsert with its commit, the confirmation reply, and the success ledger
entry with its own commit. -/
def process_email (env : EmailEnv) (sender_email subject body : String)
    (attachment_names : List String) (db0 : DB) : Run :=
  if db0.email_logs.any (fun l => l.sender_email == sender_email && l.subject == subject) then
    { commits := [], sent := [], final := db0, raised := false }
  else
    let info := extract_email_info sender_email
    let sender_name := info.1
    let sender_email_clean := info.2
    let existing_candidate :=
      db0.candidates.find? (fun c => JValue.beq c.email (.str sender_email_clean))
    if env.filter_eu_only && !(EmailBot.is_eu_phone_number body) then
      let log : EmailLogRec :=
        { sender_email := sender_email_clean, subject := subject
          candidate_id := none, status := "filtered_non_eu" }
      let db1 := { db0 with email_logs := db0.email_logs ++ [log] }
      { commits := [db1], sent := [.email_rejection sender_email_clean], final := db1
        raised := false }
    else
      let attachments := extract_cv_attachments env.sfn attachment_names
      if attachments.isEmpty && existing_candidate.isNone then
        let log : EmailLogRec :=
          { sender_email := sender_email_clean, subject := subject
            candidate_id := none, status := "cv_requested" }
        let db1 := { db0 with email_logs := db0.email_logs ++ [log] }
        { commits := [db1], sent := [.email_cv_request sender_email_clean], final := db1
          raised := false }
      else
        let upsert : DB × Option Nat :=
          match attachments.head? with
          | some secured =>
              let cv_filename := env.ts ++ secured
              let cv_data := parse_cv_text env.cv_text env.ai
              match existing_candidate with
              | some cand =>
                  let c2 := email_merge_update cand cv_data cv_filename env.now
                  ({ db0 with candidates :=
                      db0.candidates.map (fun c => if c.id = cand.id then c2 else c) },
                   some cand.id)
              | none =>
                  let c2 := email_new_candidate db0.next_id cv_data sender_name
                      sender_email_clean cv_filename subject env.now
                  ({ db0 with
                      candidates := db0.candidates ++ [c2]
                      next_id := db0.next_id + 1 },
                   some db0.next_id)
          | none =>
              (db0, existing_candidate.map (fun c => c.id))
        let pending1 := upsert.1
        let cand_id := upsert.2
        if dbValid pending1 then
          let sent1 : List Reply :=
            match cand_id with
            | some _ => [.email_confirmation sender_email_clean]
            | none => []
          let log : EmailLogRec :=
            { sender_email := sender_email_clean, subject := subject
              candidate_id := cand_id, status := "success" }
          let db2 := { pending1 with email_logs := pending1.email_logs ++ [log] }
          if dbValid db2 then
            { commits := [pending1, db2], sent := sent1, final := db2, raised := false }
          else
            { commits := [pending1], sent := sent1, final := pending1, raised := true }
        else
          { commits := [], sent := [], final := db0, raised := true }

/-! ## Chat/webhook channel handler (whatsapp_bot.py,
WhatsAppBot.process_whatsapp_message)

Same session semantics as the email handler.  The inbound message is the
webhook payload's `{from, id, type, text?, document?}`; media download
success and the parse inputs for the downloaded file are environment
inputs. -/

/-- Configuration and environment inputs of one
`process_whatsapp_message` call. -/
structure WAEnv where
  filter_eu_only : Bool
  download_ok : Bool
  cv_text : String
  ai : AIOutcome
  ts : String
  sfn : String → String
  now : Nat

/-- The dispatched shape of `message_data`: its `type` field and the
payload the handler reads for that type (`document.filename`, already
defaulted to `"document"` when missing, or `text.body`, defaulted to
`""`).  Any other `type` value falls through both branches. -/
inductive WAMessage where
  | document (filename : String)
  | text (body : String)
  | other (ty : String)

/-- whatsapp_bot.py lines 163-174: update of an existing candidate from a
new profile — phone is assigned the sender's WhatsApp number, CV-derived
columns are overwritten, the update timestamp is bumped; name and
location are left untouched. -/
def wa_merge_update (cand : CandidateRec) (from_phone : String) (cv_data : JObj)
    (cv_filename : String) (now : Nat) : CandidateRec :=
  { cand with
    phone := .str from_phone
    cv_filename := .str cv_filename
    cv_text := dget cv_data "text"
    skills := dgetD cv_data "skills" (.arr [])
    experience_years := dget cv_data "experience_years"
    education := dgetD cv_data "education" (.arr [])
    work_experience := dgetD cv_data "work_experience" (.arr [])
    summary := dget cv_data "summary"
    last_updated := now }

/-- whatsapp_bot.py lines 177-191: the new Candidate constructed on the
create path.  `email` is the Python `email or f"whatsapp_{from_phone}@temp.com"`:
the parsed value when truthy, else the synthetic per-sender address;
`name` is `cv_data.get('name', f"WhatsApp User {from_phone}")`. -/
def wa_new_candidate (id : Nat) (cv_data : JObj) (from_phone : String)
    (email_val : JValue) (cv_filename : String) (now : Nat) : CandidateRec :=
  { id := id
    name := dgetD cv_data "name" (.str ("WhatsApp User " ++ from_phone))
    email := if email_val.truthy then email_val
             else .str ("whatsapp_" ++ from_phone ++ "@temp.com")
    phone := .str from_phone
    location := dget cv_data "location"
    cv_filename := .str cv_filename
    cv_text := dget cv_data "text"
    skills := dgetD cv_data "skills" (.arr [])
    experience_years := dget cv_data "experience_years"
    education := dgetD cv_data "education" (.arr [])
    work_experience := dgetD cv_data "work_experience" (.arr [])
    summary := dget cv_data "summary"
    source := "whatsapp"
    source_reference := from_phone
    last_updated := now }

/-- whatsapp_bot.WhatsAppBot.process_whatsapp_message.  Control flow in
source order: dedup check on `(from_phone, message_id)`, optional EU
filter on the sender number, then dispatch on the message type: documents
with a CV-like filename are downloaded, parsed and upserted (success
ledger entry after the confirmation reply), failed downloads get their
own ledger entry, non-CV documents get only a reply and no ledger entry,
text messages get an optional prompt and a `text_received` ledger entry,
and any other type does nothing. -/
def process_whatsapp_message (env : WAEnv) (from_phone message_id : String)
    (m : WAMessage) (db0 : DB) : Run :=
  if db0.whatsapp_logs.any
      (fun l => l.phone_number == from_phone && l.message_id == message_id) then
    { commits := [], sent := [], final := db0, raised := false }
  else if env.filter_eu_only && !(WhatsAppBot.is_eu_phone_number from_phone) then
    let log : WhatsAppLogRec :=
      { phone_number := from_phone, message_id := message_id
        candidate_id := none, status := "filtered_non_eu" }
    let db1 := { db0 with whatsapp_logs := db0.whatsapp_logs ++ [log] }
    { commits := [db1], sent := [.wa_rejection from_phone], final := db1, raised := false }
  else
    match m with
    | .document filename =>
        if isCVFilename filename then
          if env.download_ok then
            let cv_filename := env.ts ++ env.sfn filename
            let cv_data := parse_cv_text env.cv_text env.ai
            let email_val := dget cv_data "email"
            let existing_candidate :=
              if email_val.truthy then
                db0.candidates.find? (fun c => JValue.beq c.email email_val)
              else none
            let upsert : DB × Nat :=
              match existing_candidate with
              | some cand =>
                  let c2 := wa_merge_update cand from_phone cv_data cv_filename env.now
                  ({ db0 with candidates :=
                      db0.candidates.map (fun c => if c.id = cand.id then c2 else c) },
                   cand.id)
              | none =>
                  let c2 := wa_new_candidate db0.next_id cv_data from_phone email_val
                      cv_filename env.now
                  ({ db0 with
                      candidates := db0.candidates ++ [c2]
                      next_id := db0.next_id + 1 },
                   db0.next_id)
            let pending1 := upsert.1
            let cand_id := upsert.2
            if dbValid pending1 then
              let log : WhatsAppLogRec :=
                { phone_number := from_phone, message_id := message_id
                  candidate_id := some cand_id, status := "success" }
              let db2 := { pending1 with whatsapp_logs := pending1.whatsapp_logs ++ [log] }
              if dbValid db2 then
                { commits := [pending1, db2], sent := [.wa_confirmation from_phone]
                  final := db2, raised := false }
              else
                { commits := [pending1], sent := [.wa_confirmation from_phone]
                  final := pending1, raised := true }
            else
              { commits := [], sent := [], final := db0, raised := true }
          else
            let log : WhatsAppLogRec :=
              { phone_number := from_phone, message_id := message_id
                candidate_id := none, status := "download_failed" }
            let db1 := { db0 with whatsapp_logs := db0.whatsapp_logs ++ [log] }
            { commits := [db1], sent := [.wa_download_failed from_phone], final := db1
              raised := false }
        else
          { commits := [], sent := [.wa_not_cv from_phone], final := db0, raised := false }
    | .text body =>
        let lower := strLower body
        let sent :=
          if strContains lower "cv" || strContains lower "resume" || strContains lower "job"
          then [Reply.wa_welcome from_phone] else []
        let log : WhatsAppLogRec :=
          { phone_number := from_phone, message_id := message_id
            candidate_id := none, status := "text_received" }
        let db1 := { db0 with whatsapp_logs := db0.whatsapp_logs ++ [log] }
        { commits := [db1], sent := sent, final := db1, raised := false }
    | .other _ =>
        { commits := [], sent := [], final := db0, raised := false }

/-! ## Basic lemmas about the dict operations -/

theorem jget_jset_same (o : JObj) (k : String) (v : JValue) :
    jget (jset o k v) k = some v := by
  induction o with
  | nil => simp [jset, jget, List.find?]
  | cons kv rest ih =>
      obtain ⟨k1, v1⟩ := kv
      by_cases h : k1 = k
      · simp [jset, h, jget, List.find?]
      · have hb : (k1 == k) = false := by simp [h]
        simp [jset, hb, jget, List.find?] at ih ⊢
        exact ih

theorem jget_jset_ne (o : JObj) (k1 k : String) (v : JValue) (h : k1 ≠ k) :
    jget (jset o k1 v) k = jget o k := by
  induction o with
  | nil =>
      have hb : (k1 == k) = false := by simp [h]
      simp [jset, jget, List.find?, hb]
  | cons kv rest ih =>
      obtain ⟨ka, va⟩ := kv
      by_cases h2 : ka = k1
      · have hb : (k1 == k) = false := by simp [h]
        have hb2 : (ka == k) = false := by simp [h2, h]
        simp [jset, h2, jget, List.find?, hb, hb2]
      · have hb2 : (ka == k1) = false := by simp [h2]
        by_cases h3 : ka = k
        · subst h3
          simp [jset, hb2, jget, List.find?]
        · have hb3 : (ka == k) = false := by simp [h3]
          simp [jset, hb2, jget, List.find?, hb3] at ih ⊢
          exact ih

theorem dgetD_of_jget (o : JObj) (k : String) (v d : JValue) (h : jget o k = some v) :
    dgetD o k d = v := by
  simp [dgetD, h]

theorem dget_of_jget (o : JObj) (k : String) (v : JValue) (h : jget o k = some v) :
    dget o k = v := by
  simp [dget, h]

theorem ensure_list_preserves (o : JObj) (k1 k : String) (h : k1 ≠ k) :
    jget (ensure_list o k1) k = jget o k := by
  unfold ensure_list
  split
  · rfl
  · exact jget_jset_ne o k1 k (.arr []) h

theorem normalize_exp_preserves (o : JObj) (k : String) (h : k ≠ "experience_years") :
    jget (normalize_experience_years o) k = jget o k := by
  unfold normalize_experience_years
  have hne : "experience_years" ≠ k := fun he => h he.symm
  split
  · split
    · exact jget_jset_ne o "experience_years" k _ hne
    · exact jget_jset_ne o "experience_years" k _ hne
  · rfl
  · rfl
  · exact jget_jset_ne o "experience_years" k _ hne

/-- Looking up a key other than the three list keys in the normalized AI
result gives the lookup in the raw decoded object. -/
theorem parse_ai_preserves (fields : List (String × JValue)) (k : String)
    (h1 : k ≠ "skills") (h2 : k ≠ "education") (h3 : k ≠ "work_experience")
    (h4 : k ≠ "experience_years") :
    jget (parse_cv_with_ai (.success (.obj fields))) k = jget fields k := by
  unfold parse_cv_with_ai
  rw [normalize_exp_preserves _ _ h4,
    ensure_list_preserves _ _ _ (fun he => h3 he.symm),
    ensure_list_preserves _ _ _ (fun he => h2 he.symm),
    ensure_list_preserves _ _ _ (fun he => h1 he.symm)]

theorem filter_nil_of_any_false {α : Type} (p : α → Bool) (l : List α)
    (h : l.any p = false) : l.filter p = [] := by
  induction l with
  | nil => rfl
  | cons x xs ih =>
      rw [List.any_cons, Bool.or_eq_false_iff] at h
      rw [List.filter_cons, if_neg (by simp [h.1])]
      exact ih h.2

/-! ## Claim C5: the document text extractor never raises -/

/-- C5: for every input file path — nonexistent, zero-byte/corrupt of any
supported format (a `FileEnv` whose reads all raise), or with an
unsupported extension — `extract_text_from_file` returns a string (the
empty string on any failure) and never raises an exception to its
caller. -/
theorem C5_extractor_never_raises :
    (∀ (filepath : String) (env : FileEnv),
        ∃ s, extract_text_from_file filepath env = .ok s)
    ∧ (∀ (filepath : String) (env : FileEnv), env.path_exists = false →
        extract_text_from_file filepath env = .ok "")
    ∧ (∀ (filepath : String) (e1 e2 : PyExn) (e3 e4 : PyExn),
        extract_text_from_file filepath ⟨true, .exn e1, .exn e2, .exn e3, .exn e4⟩ = .ok "") := by
  refine ⟨?_, ?_, ?_⟩
  · intro filepath env
    obtain ⟨pe, pr, dr, tu, tl⟩ := env
    cases pe
    · exact ⟨"", rfl⟩
    · unfold extract_text_from_file extract_text_from_pdf extract_text_from_docx
        extract_text_from_txt
      dsimp only
      split
      · exact ⟨"", rfl⟩
      · split
        · cases pr with
          | ok pages => exact ⟨_, rfl⟩
          | exn e => exact ⟨"", rfl⟩
        · split
          · cases dr with
            | ok paras => exact ⟨_, rfl⟩
            | exn e => exact ⟨"", rfl⟩
          · split
            · cases tu with
              | ok s => exact ⟨_, rfl⟩
              | exn e =>
                  cases e with
                  | unicodeDecodeError =>
                      cases tl with
                      | ok s => exact ⟨_, rfl⟩
                      | exn e2 => exact ⟨"", rfl⟩
                  | other m => exact ⟨"", rfl⟩
            · exact ⟨"", rfl⟩
  · intro filepath env h
    obtain ⟨pe, pr, dr, tu, tl⟩ := env
    cases h
    rfl
  · intro filepath e1 e2 e3 e4
    unfold extract_text_from_file extract_text_from_pdf extract_text_from_docx
      extract_text_from_txt
    dsimp only
    split
    · rfl
    · split
      · rfl
      · split
        · rfl
        · split
          · cases e3 with
            | unicodeDecodeError => rfl
            | other m => rfl
          · rfl

/-- Witness for C5 at concrete inputs: a missing file yields `.ok ""`,
and a corrupt pdf (every read raising) yields `.ok ""`. -/
theorem C5_extractor_never_raises_witness :
    extract_text_from_file "uploads/missing.pdf"
      ⟨false, .exn (.other "e"), .exn (.other "e"), .exn (.other "e"), .exn (.other "e")⟩
      = .ok ""
    ∧ extract_text_from_file "uploads/corrupt.pdf"
      ⟨true, .exn (.other "EOF marker not found"), .exn (.other "e"),
        .exn .unicodeDecodeError, .exn (.other "e")⟩ = .ok "" :=
  ⟨C5_extractor_never_raises.2.1 "uploads/missing.pdf" _ rfl,
   C5_extractor_never_raises.2.2 "uploads/corrupt.pdf" _ _ _ _⟩

/-! ## Claim C9: the eligibility rejection path -/

/-- C9: on either channel, when the eligibility filter is enabled and the
sender is ineligible (no allow-listed calling code matches — for email the
codes are sought in the body text, for chat as a prefix of the sender
number), the handler sends exactly the rejection reply, appends exactly
one ledger entry whose status is the filtered one (`'filtered_non_eu'` in
the code, the spec's `filtered_ineligible`), performs zero candidate
mutations, and raises nothing. -/
theorem C9_filter_rejection_no_mutation :
    (∀ (env : EmailEnv) (sender subject body : String) (atts : List String) (db0 : DB),
      env.filter_eu_only = true →
      EmailBot.is_eu_phone_number body = false →
      db0.email_logs.any (fun l => l.sender_email == sender && l.subject == subject) = false →
      (process_email env sender subject body atts db0).sent
          = [.email_rejection (extract_email_info sender).2]
      ∧ (process_email env sender subject body atts db0).final.candidates = db0.candidates
      ∧ (process_email env sender subject body atts db0).final.email_logs
          = db0.email_logs ++
            [{ sender_email := (extract_email_info sender).2, subject := subject
               candidate_id := none, status := "filtered_non_eu" }]
      ∧ (process_email env sender subject body atts db0).raised = false)
    ∧ (∀ (env : WAEnv) (from_phone message_id : String) (m : WAMessage) (db0 : DB),
      env.filter_eu_only = true →
      WhatsAppBot.is_eu_phone_number from_phone = false →
      db0.whatsapp_logs.any
        (fun l => l.phone_number == from_phone && l.message_id == message_id) = false →
      (process_whatsapp_message env from_phone message_id m db0).sent
          = [.wa_rejection from_phone]
      ∧ (process_whatsapp_message env from_phone message_id m db0).final.candidates
          = db0.candidates
      ∧ (process_whatsapp_message env from_phone message_id m db0).final.whatsapp_logs
          = db0.whatsapp_logs ++
            [{ phone_number := from_phone, message_id := message_id
               candidate_id := none, status := "filtered_non_eu" }]
      ∧ (process_whatsapp_message env from_phone message_id m db0).raised = false) := by
  constructor
  · intro env sender subject body atts db0 hf hne hdedup
    simp [process_email, hf, hne, hdedup]
  · intro env from_phone message_id m db0 hf hne hdedup
    simp [process_whatsapp_message, hf, hne, hdedup]

/-- Witness for C9 at concrete ineligible senders on both channels,
starting from the empty store. -/
theorem C9_filter_rejection_no_mutation_witness :
    ((process_email
        { filter_eu_only := true, cv_text := "", ai := .failure, ts := "t_"
          sfn := fun s => s, now := 0 }
        "bob@x.com" "Job application" "Hi, I am writing from New York" ["cv.pdf"]
        ⟨[], [], [], 1⟩).sent = [.email_rejection "bob@x.com"])
    ∧ ((process_whatsapp_message
        { filter_eu_only := true, download_ok := true, cv_text := "", ai := .failure
          ts := "t_", sfn := fun s => s, now := 0 }
        "15551234567" "wamid.1" (.document "cv.pdf")
        ⟨[], [], [], 1⟩).sent = [.wa_rejection "15551234567"]) := by
  constructor
  · exact (C9_filter_rejection_no_mutation.1 _ "bob@x.com" "Job application"
      "Hi, I am writing from New York" ["cv.pdf"] ⟨[], [], [], 1⟩ rfl (by decide) rfl).1
  · exact (C9_filter_rejection_no_mutation.2 _ "15551234567" "wamid.1"
      (.document "cv.pdf") ⟨[], [], [], 1⟩ rfl (by decide) rfl).1

/-! ## Claim C6: AI-output normalization -/

/-- C6 (amended): experience_years normalization behaves exactly as
claimed — a nonempty string value yields its first integer substring (0
when it has none), an integer value is kept, an absent value yields 0 —
and a present non-list skills value is coerced to the empty list; but an
omitted list field stays omitted (its key is absent from the normalized
object) rather than being coerced to the empty list. -/
theorem C6_normalization_amended :
    (∀ (fields : List (String × JValue)) (s : String),
      jget fields "experience_years" = some (.str s) → s ≠ "" →
      jget (parse_cv_with_ai (.success (.obj fields))) "experience_years"
        = some (.int ((firstIntSubstring s.toList).getD 0)))
    ∧ (∀ (fields : List (String × JValue)) (n : Int),
      jget fields "experience_years" = some (.int n) →
      jget (parse_cv_with_ai (.success (.obj fields))) "experience_years" = some (.int n))
    ∧ (∀ (fields : List (String × JValue)),
      jget fields "experience_years" = none →
      jget (parse_cv_with_ai (.success (.obj fields))) "experience_years" = some (.int 0))
    ∧ (∀ (fields : List (String × JValue)) (v : JValue),
      jget fields "skills" = some v → v.isList = false →
      jget (parse_cv_with_ai (.success (.obj fields))) "skills" = some (.arr []))
    ∧ (∀ (fields : List (String × JValue)),
      jget fields "skills" = none →
      jget (parse_cv_with_ai (.success (.obj fields))) "skills" = none) := by
  have hpres : ∀ (fields : List (String × JValue)),
      jget (ensure_list (ensure_list (ensure_list fields "skills") "education")
        "work_experience") "experience_years" = jget fields "experience_years" := by
    intro fields
    rw [ensure_list_preserves _ _ _ (by decide), ensure_list_preserves _ _ _ (by decide),
      ensure_list_preserves _ _ _ (by decide)]
  refine ⟨?_, ?_, ?_, ?_, ?_⟩
  · intro fields s h hs
    unfold parse_cv_with_ai normalize_experience_years
    dsimp only
    rw [hpres, h]
    dsimp only
    rw [if_pos hs]
    exact jget_jset_same _ _ _
  · intro fields n h
    unfold parse_cv_with_ai normalize_experience_years
    dsimp only
    rw [hpres, h]
    dsimp only
    rw [hpres, h]
  · intro fields h
    unfold parse_cv_with_ai normalize_experience_years
    dsimp only
    rw [hpres, h]
    dsimp only
    exact jget_jset_same _ _ _
  · intro fields v h hv
    unfold parse_cv_with_ai
    have e1 : jget (ensure_list fields "skills") "skills" = some (.arr []) := by
      unfold ensure_list
      rw [dgetD_of_jget _ _ _ _ h, if_neg (by simp [hv])]
      exact jget_jset_same _ _ _
    rw [normalize_exp_preserves _ _ (by decide), ensure_list_preserves _ _ _ (by decide),
      ensure_list_preserves _ _ _ (by decide)]
    exact e1
  · intro fields h
    unfold parse_cv_with_ai
    have e1 : ensure_list fields "skills" = fields := by
      simp [ensure_list, dgetD, h, JValue.isList]
    rw [normalize_exp_preserves _ _ (by decide), ensure_list_preserves _ _ _ (by decide),
      ensure_list_preserves _ _ _ (by decide), e1]
    exact h

/-- Counterexample to C6 as stated: on the service response `{}` the
normalized output has no `skills`, `education` or `work_experience` key
at all (the `result.get(k, [])` default already passes the isinstance
check, so nothing is written back), even though `experience_years` is
set; the claim's "coerced to the empty list whenever the service ...
omits the field" fails. -/
theorem C6_counterexample :
    (jget (parse_cv_with_ai (.success (.obj []))) "skills").isSome = false
    ∧ (jget (parse_cv_with_ai (.success (.obj []))) "education").isSome = false
    ∧ (jget (parse_cv_with_ai (.success (.obj []))) "work_experience").isSome = false
    ∧ jget (parse_cv_with_ai (.success (.obj []))) "experience_years" = some (.int 0) :=
  ⟨rfl, rfl, rfl, rfl⟩

/-- Witness for C6 at the claim's own examples: `"5 years"` yields 5,
`"five"` yields 0, `7` stays 7, an absent field yields 0, and a non-list
skills value becomes `[]`. -/
theorem C6_normalization_amended_witness :
    jget (parse_cv_with_ai (.success (.obj [("experience_years", .str "5 years")])))
      "experience_years" = some (.int 5)
    ∧ jget (parse_cv_with_ai (.success (.obj [("experience_years", .str "five")])))
      "experience_years" = some (.int 0)
    ∧ jget (parse_cv_with_ai (.success (.obj [("experience_years", .int 7)])))
      "experience_years" = some (.int 7)
    ∧ jget (parse_cv_with_ai (.success (.obj [("name", .str "Ada")])))
      "experience_years" = some (.int 0)
    ∧ jget (parse_cv_with_ai (.success (.obj [("skills", .str "Python")])))
      "skills" = some (.arr []) := by
  refine ⟨?_, ?_, ?_, ?_, ?_⟩
  · exact C6_normalization_amended.1 _ "5 years" rfl (by decide)
  · exact C6_normalization_amended.1 _ "five" rfl (by decide)
  · exact C6_normalization_amended.2.1 _ 7 rfl
  · exact C6_normalization_amended.2.2.1 _ rfl
  · exact C6_normalization_amended.2.2.2.1 _ (.str "Python") rfl rfl

/-! ## Claim C7: the regex fallback only completes, never overwrites -/

theorem fallback_email_preserves (cv basic : JObj) (k : String) (h : k ≠ "email") :
    jget (fallback_email cv basic) k = jget cv k := by
  unfold fallback_email
  split
  · exact jget_jset_ne _ _ _ _ (fun he => h he.symm)
  · rfl

theorem fallback_name_preserves (cv basic : JObj) (k : String) (h : k ≠ "name") :
    jget (fallback_name cv basic) k = jget cv k := by
  unfold fallback_name
  split
  · exact jget_jset_ne _ _ _ _ (fun he => h he.symm)
  · rfl

theorem fallback_phone_preserves (cv basic : JObj) (k : String) (h : k ≠ "phone") :
    jget (fallback_phone cv basic) k = jget cv k := by
  unfold fallback_phone
  split
  · exact jget_jset_ne _ _ _ _ (fun he => h he.symm)
  · rfl

theorem fallback_email_skip (cv basic : JObj) (v : JValue)
    (h : jget cv "email" = some v) (hv : v.truthy = true) :
    fallback_email cv basic = cv := by
  unfold fallback_email
  rw [if_neg]
  simp [dget_of_jget _ _ _ h, hv]

theorem fallback_name_skip (cv basic : JObj) (v : JValue)
    (h : jget cv "name" = some v) (hv : v.truthy = true) :
    fallback_name cv basic = cv := by
  unfold fallback_name
  rw [if_neg]
  simp [dget_of_jget _ _ _ h, hv]

theorem fallback_phone_skip (cv basic : JObj) (v : JValue)
    (h : jget cv "phone" = some v) (hv : v.truthy = true) :
    fallback_phone cv basic = cv := by
  unfold fallback_phone
  rw [if_neg]
  simp [dget_of_jget _ _ _ h, hv]

/-- C7 (amended): for every nonempty extracted text, a truthy (non-null
and nonempty) AI value for email, name or phone survives to the
orchestrator's output unchanged; the fallback can replace a value only
when the current value is falsy — which includes not just null but also
the empty string, the case the original claim misses. -/
theorem C7_fallback_amended :
    ∀ (cv_text : String) (ai : AIOutcome) (v : JValue), cv_text ≠ "" →
      (jget (parse_cv_with_ai ai) "email" = some v → v.truthy = true →
        jget (parse_cv_file cv_text ai) "email" = some v)
      ∧ (jget (parse_cv_with_ai ai) "name" = some v → v.truthy = true →
        jget (parse_cv_file cv_text ai) "name" = some v)
      ∧ (jget (parse_cv_with_ai ai) "phone" = some v → v.truthy = true →
        jget (parse_cv_file cv_text ai) "phone" = some v) := by
  intro cv_text ai v ht
  unfold parse_cv_file
  rw [if_neg ht]
  dsimp only
  refine ⟨?_, ?_, ?_⟩
  · intro h hv
    have hD : jget (jset (parse_cv_with_ai ai) "text" (.str cv_text)) "email" = some v := by
      rw [jget_jset_ne _ _ _ _ (by decide)]; exact h
    split
    · unfold fallback_fill
      rw [fallback_phone_preserves _ _ _ (by decide),
        fallback_name_preserves _ _ _ (by decide),
        fallback_email_skip _ _ _ hD hv]
      exact hD
    · exact hD
  · intro h hv
    have hD : jget (jset (parse_cv_with_ai ai) "text" (.str cv_text)) "name" = some v := by
      rw [jget_jset_ne _ _ _ _ (by decide)]; exact h
    split
    · unfold fallback_fill
      have hD2 : jget (fallback_email (jset (parse_cv_with_ai ai) "text" (.str cv_text))
          (extract_basic_info_regex cv_text)) "name" = some v := by
        rw [fallback_email_preserves _ _ _ (by decide)]; exact hD
      rw [fallback_phone_preserves _ _ _ (by decide),
        fallback_name_skip _ _ _ hD2 hv]
      exact hD2
    · exact hD
  · intro h hv
    have hD : jget (jset (parse_cv_with_ai ai) "text" (.str cv_text)) "phone" = some v := by
      rw [jget_jset_ne _ _ _ _ (by decide)]; exact h
    split
    · unfold fallback_fill
      have hD2 : jget (fallback_name (fallback_email
          (jset (parse_cv_with_ai ai) "text" (.str cv_text))
          (extract_basic_info_regex cv_text)) (extract_basic_info_regex cv_text))
          "phone" = some v := by
        rw [fallback_name_preserves _ _ _ (by decide),
          fallback_email_preserves _ _ _ (by decide)]
        exact hD
      rw [fallback_phone_skip _ _ _ hD2 hv]
      exact hD2
    · exact hD

/-- Counterexample to C7 as stated: the AI pass returned the non-null
value `""` for email (and a non-null name), yet the orchestrator's output
contains the regex fallback's address instead of that AI value — the
guard is truthiness, not null-ness, so a non-null falsy value is
overwritten. -/
theorem C7_counterexample :
    jget (parse_cv_with_ai (.success (.obj [("email", .str ""), ("name", .str "Ada Lovelace")])))
      "email" = some (.str "")
    ∧ jget (parse_cv_file "reach me: ada@example.com"
        (.success (.obj [("email", .str ""), ("name", .str "Ada Lovelace")])))
      "email" = some (.str "ada@example.com") :=
  ⟨rfl, rfl⟩

/-- Witness for C7 at a concrete truthy AI profile: both AI values come
through unchanged on a text whose regex matches would differ. -/
theorem C7_fallback_amended_witness :
    jget (parse_cv_file "reach me: other@example.com"
        (.success (.obj [("email", .str "ada@x.com"), ("phone", .str "+1 555 0100 000")])))
      "email" = some (.str "ada@x.com")
    ∧ jget (parse_cv_file "reach me: other@example.com"
        (.success (.obj [("email", .str "ada@x.com"), ("phone", .str "+1 555 0100 000")])))
      "phone" = some (.str "+1 555 0100 000") :=
  ⟨(C7_fallback_amended "reach me: other@example.com" _ (.str "ada@x.com")
      (by decide)).1 rfl rfl,
   (C7_fallback_amended "reach me: other@example.com" _ (.str "+1 555 0100 000")
      (by decide)).2.2 rfl rfl⟩

/-! ## Claim C8: the merge policy -/

/-- C8 (amended): on every merge, the CV-derived columns (attachment
reference, text, skills, experience years, education, work experience,
summary) are overwritten with the new profile's values and the update
timestamp is bumped; the email-channel merge never touches name, phone or
location (so null profile values cannot overwrite them); but the chat
channel merge overwrites phone with the sender's WhatsApp number
unconditionally (while leaving name and location untouched). -/
theorem C8_merge_policy_amended :
    (∀ (cand : CandidateRec) (cv : JObj) (fn : String) (now : Nat),
      (email_merge_update cand cv fn now).name = cand.name
      ∧ (email_merge_update cand cv fn now).phone = cand.phone
      ∧ (email_merge_update cand cv fn now).location = cand.location
      ∧ (email_merge_update cand cv fn now).cv_filename = .str fn
      ∧ (email_merge_update cand cv fn now).cv_text = dget cv "text"
      ∧ (email_merge_update cand cv fn now).skills = dgetD cv "skills" (.arr [])
      ∧ (email_merge_update cand cv fn now).experience_years = dget cv "experience_years"
      ∧ (email_merge_update cand cv fn now).education = dgetD cv "education" (.arr [])
      ∧ (email_merge_update cand cv fn now).work_experience
          = dgetD cv "work_experience" (.arr [])
      ∧ (email_merge_update cand cv fn now).summary = dget cv "summary"
      ∧ (email_merge_update cand cv fn now).last_updated = now)
    ∧ (∀ (cand : CandidateRec) (ph : String) (cv : JObj) (fn : String) (now : Nat),
      (wa_merge_update cand ph cv fn now).name = cand.name
      ∧ (wa_merge_update cand ph cv fn now).location = cand.location
      ∧ (wa_merge_update cand ph cv fn now).phone = .str ph
      ∧ (wa_merge_update cand ph cv fn now).cv_filename = .str fn
      ∧ (wa_merge_update cand ph cv fn now).cv_text = dget cv "text"
      ∧ (wa_merge_update cand ph cv fn now).skills = dgetD cv "skills" (.arr [])
      ∧ (wa_merge_update cand ph cv fn now).experience_years = dget cv "experience_years"
      ∧ (wa_merge_update cand ph cv fn now).last_updated = now) :=
  ⟨fun _ _ _ _ => ⟨rfl, rfl, rfl, rfl, rfl, rfl, rfl, rfl, rfl, rfl, rfl⟩,
   fun _ _ _ _ _ => ⟨rfl, rfl, rfl, rfl, rfl, rfl, rfl, rfl⟩⟩

/-- Existing candidate used by the C8 counterexample scenario: Jane with
the spec's example phone. -/
def jane : CandidateRec :=
  { id := 7, name := .str "Jane Doe", email := .str "jane@x.com"
    phone := .str "+1-555-0100", location := .null, cv_filename := .null
    cv_text := .null, skills := .arr [], experience_years := .null
    education := .arr [], work_experience := .arr [], summary := .null
    source := "email", source_reference := "Application", last_updated := 1 }

/-- Environment of the C8 counterexample: a chat CV submission whose
parsed profile has Jane's email, a truthy name, skills `["Go"]` and no
phone. -/
def c8_env : WAEnv :=
  { filter_eu_only := false, download_ok := true, cv_text := "Jane Doe CV"
    ai := .success (.obj [("email", .str "jane@x.com"), ("name", .str "Jane Doe"),
      ("skills", .arr [.str "Go"])])
    ts := "t_", sfn := fun s => s, now := 9 }

/-- The C8 counterexample run: Jane resubmits her CV over WhatsApp from
number 4917777. -/
def c8_run : Run :=
  process_whatsapp_message c8_env "4917777" "wamid.8" (.document "cv.pdf") ⟨[jane], [], [], 8⟩

/-- Counterexample to C8 as stated: the new profile's phone is null and
the existing phone is `+1-555-0100`, yet after the chat-channel merge the
stored phone is the sender's WhatsApp number — the existing phone is not
preserved (the skills replacement half does hold). -/
theorem C8_counterexample :
    jane.phone = .str "+1-555-0100"
    ∧ dget (parse_cv_text c8_env.cv_text c8_env.ai) "phone" = .null
    ∧ c8_run.final.candidates.map (fun c => c.phone.beq (.str "4917777")) = [true]
    ∧ c8_run.final.candidates.map (fun c => c.phone.beq (.str "+1-555-0100")) = [false]
    ∧ c8_run.final.candidates.map (fun c => c.skills.beq (.arr [.str "Go"])) = [true] :=
  ⟨rfl, rfl, rfl, rfl, rfl⟩

/-! ## Claim C4: one ledger entry per non-skipped message -/

/-- C4 (amended): a chat text message that passes the dedup and
eligibility gates gets exactly one ledger entry for its
`(senderPhone, messageId)` key; but a document message whose filename has
no allow-listed CV extension gets only a reply and no ledger entry at all
(contrary to the claim), as does any message of another type. -/
theorem C4_ledger_amended :
    (∀ (env : WAEnv) (from_phone message_id fname : String) (db0 : DB),
      db0.whatsapp_logs.any
        (fun l => l.phone_number == from_phone && l.message_id == message_id) = false →
      (env.filter_eu_only && !(WhatsAppBot.is_eu_phone_number from_phone)) = false →
      isCVFilename fname = false →
      (process_whatsapp_message env from_phone message_id (.document fname) db0).final.whatsapp_logs
          = db0.whatsapp_logs
      ∧ (process_whatsapp_message env from_phone message_id (.document fname) db0).sent
          = [.wa_not_cv from_phone])
    ∧ (∀ (env : WAEnv) (from_phone message_id body : String) (db0 : DB),
      db0.whatsapp_logs.any
        (fun l => l.phone_number == from_phone && l.message_id == message_id) = false →
      (env.filter_eu_only && !(WhatsAppBot.is_eu_phone_number from_phone)) = false →
      ((process_whatsapp_message env from_phone message_id (.text body) db0).final.whatsapp_logs.filter
          (fun l => l.phone_number == from_phone && l.message_id == message_id)).length = 1)
    ∧ (∀ (env : WAEnv) (from_phone message_id ty : String) (db0 : DB),
      db0.whatsapp_logs.any
        (fun l => l.phone_number == from_phone && l.message_id == message_id) = false →
      (env.filter_eu_only && !(WhatsAppBot.is_eu_phone_number from_phone)) = false →
      (process_whatsapp_message env from_phone message_id (.other ty) db0).final.whatsapp_logs
          = db0.whatsapp_logs) := by
  refine ⟨?_, ?_, ?_⟩
  · intro env from_phone message_id fname db0 hdedup hfilter hcv
    constructor
    · simp [process_whatsapp_message, hdedup, hfilter, hcv]
    · simp [process_whatsapp_message, hdedup, hfilter, hcv]
  · intro env from_phone message_id body db0 hdedup hfilter
    simp [process_whatsapp_message, hdedup, hfilter, List.filter_append,
      filter_nil_of_any_false _ _ hdedup]
  · intro env from_phone message_id ty db0 hdedup hfilter
    simp [process_whatsapp_message, hdedup, hfilter]

/-- Environment of the C4 concrete runs: filter off, download fine. -/
def c4_env : WAEnv :=
  { filter_eu_only := false, download_ok := true, cv_text := "", ai := .failure
    ts := "t_", sfn := fun s => s, now := 0 }

/-- Counterexample to C4 as stated: a document message whose filename is
`photo.jpg` (no allow-listed extension) leaves the ledger empty — zero
entries, not exactly one — while still sending the format reply. -/
theorem C4_counterexample :
    (process_whatsapp_message c4_env
      "491234" "wamid.4" (.document "photo.jpg") ⟨[], [], [], 1⟩).final.whatsapp_logs = []
    ∧ (process_whatsapp_message c4_env
      "491234" "wamid.4" (.document "photo.jpg") ⟨[], [], [], 1⟩).sent
        = [.wa_not_cv "491234"] :=
  ⟨rfl, rfl⟩

/-- Witness for C4 at concrete messages: a png document writes nothing,
a text message writes exactly one `text_received` entry for its key. -/
theorem C4_ledger_amended_witness :
    (process_whatsapp_message c4_env
      "491234" "wamid.5" (.document "notes.png") ⟨[], [], [], 1⟩).final.whatsapp_logs = []
    ∧ ((process_whatsapp_message c4_env
      "491234" "wamid.6" (.text "do you have any jobs?") ⟨[], [], [], 1⟩).final.whatsapp_logs.filter
        (fun l => l.phone_number == "491234" && l.message_id == "wamid.6")).length = 1 :=
  ⟨(C4_ledger_amended.1 c4_env "491234" "wamid.5" "notes.png" ⟨[], [], [], 1⟩ rfl rfl
      (by decide)).1,
   C4_ledger_amended.2.1 c4_env "491234" "wamid.6" "do you have any jobs?" ⟨[], [], [], 1⟩ rfl rfl⟩

/-! ## Claim C3: the no-email chat submission path -/

theorem emailsDistinct_append_false (l : List CandidateRec) (c : CandidateRec)
    (h : l.any (fun d => JValue.beq d.email c.email) = true) :
    emailsDistinct (l ++ [c]) = false := by
  induction l with
  | nil => simp [List.any_nil] at h
  | cons x xs ih =>
      rw [List.any_cons, Bool.or_eq_true] at h
      rcases h with hx | hxs
      · have hall : ((xs ++ [c]).all (fun d => !(JValue.beq x.email d.email))) = false := by
          rw [List.all_append]
          simp [hx]
        simp [emailsDistinct, hall]
      · simp [emailsDistinct, ih hxs]

/-- C3 (amended): for a chat CV submission whose parsed profile has no
(truthy) email, the handler performs no candidate lookup at all
(`existing_candidate` is `None`) and always takes the create path with
the synthetic address `whatsapp_<phone>@temp.com`; hence when a record
with that synthetic address already exists — as after a first no-email
submission from the same sender — the insert violates the email
uniqueness constraint, the commit raises, the error ledger write on the
poisoned session fails too, and nothing persists: the handler does not
merge into the existing record. -/
theorem C3_no_email_amended :
    ∀ (env : WAEnv) (from_phone message_id fname : String) (db0 : DB),
      db0.whatsapp_logs.any
        (fun l => l.phone_number == from_phone && l.message_id == message_id) = false →
      (env.filter_eu_only && !(WhatsAppBot.is_eu_phone_number from_phone)) = false →
      isCVFilename fname = true →
      env.download_ok = true →
      (dget (parse_cv_text env.cv_text env.ai) "email").truthy = false →
      db0.candidates.any (fun d => JValue.beq d.email
        (.str ("whatsapp_" ++ from_phone ++ "@temp.com"))) = true →
      (process_whatsapp_message env from_phone message_id (.document fname) db0).final = db0
      ∧ (process_whatsapp_message env from_phone message_id (.document fname) db0).raised = true
      ∧ (process_whatsapp_message env from_phone message_id (.document fname) db0).sent = []
      ∧ (process_whatsapp_message env from_phone message_id (.document fname) db0).commits
          = [] := by
  intro env from_phone message_id fname db0 hdedup hfilter hcv hdl hmail hdup
  have hc2 : (wa_new_candidate db0.next_id (parse_cv_text env.cv_text env.ai) from_phone
      (dget (parse_cv_text env.cv_text env.ai) "email")
      (env.ts ++ env.sfn fname) env.now).email
      = .str ("whatsapp_" ++ from_phone ++ "@temp.com") := by
    unfold wa_new_candidate
    simp [hmail]
  have hpend : dbValid { db0 with
      candidates := db0.candidates ++
        [wa_new_candidate db0.next_id (parse_cv_text env.cv_text env.ai) from_phone
          (dget (parse_cv_text env.cv_text env.ai) "email")
          (env.ts ++ env.sfn fname) env.now]
      next_id := db0.next_id + 1 } = false := by
    unfold dbValid
    have := emailsDistinct_append_false db0.candidates
      (wa_new_candidate db0.next_id (parse_cv_text env.cv_text env.ai) from_phone
        (dget (parse_cv_text env.cv_text env.ai) "email")
        (env.ts ++ env.sfn fname) env.now)
      (by rw [hc2]; exact hdup)
    simp [this]
  simp only [parse_cv_text] at hmail hpend
  refine ⟨?_, ?_, ?_, ?_⟩ <;>
    simp [process_whatsapp_message, parse_cv_text, hdedup, hfilter, hcv, hdl, hmail, hpend]

/-- Environment of the first C3 submission: a CV document whose parse
yields no email (AI failure; the text has no email for the regex
fallback, but gives a fallback name). -/
def c3_env : WAEnv :=
  { filter_eu_only := false, download_ok := true, cv_text := "hello world resume"
    ai := .failure, ts := "t_", sfn := fun s => s, now := 3 }

/-- Environment of the second C3 submission: a fresh no-email CV from
the same sender. -/
def c3_env2 : WAEnv :=
  { filter_eu_only := false, download_ok := true, cv_text := "fresh resume text"
    ai := .failure, ts := "u_", sfn := fun s => s, now := 4 }

/-- First no-email submission from sender 491234. -/
def c3_run1 : Run :=
  process_whatsapp_message c3_env "491234" "wamid.31" (.document "cv.pdf") ⟨[], [], [], 1⟩

/-- Second no-email submission from the same sender (new message id). -/
def c3_run2 : Run :=
  process_whatsapp_message c3_env2 "491234" "wamid.32" (.document "cv.pdf") c3_run1.final

/-- Counterexample to C3 as stated: the first no-email submission creates
the synthetic-identity record, but the second one does not merge into it —
the handler looks nothing up, attempts a duplicate create, raises, sends
no reply, commits nothing, and leaves the record exactly as the first
submission wrote it (old text, old timestamp). -/
theorem C3_counterexample :
    c3_run1.final.candidates.map
      (fun c => c.email.beq (.str "whatsapp_491234@temp.com")) = [true]
    ∧ c3_run2.raised = true
    ∧ c3_run2.commits = []
    ∧ c3_run2.sent = []
    ∧ c3_run2.final.candidates.map
      (fun c => c.cv_text.beq (.str "hello world resume")) = [true]
    ∧ c3_run2.final.candidates.map (fun c => c.last_updated) = [3] :=
  ⟨rfl, rfl, rfl, rfl, rfl, rfl⟩

/-- Witness for C3 (amended) at the concrete second submission. -/
theorem C3_no_email_amended_witness :
    (process_whatsapp_message c3_env2 "491234" "wamid.32"
      (.document "cv.pdf") c3_run1.final).raised = true
    ∧ (process_whatsapp_message c3_env2 "491234" "wamid.32"
      (.document "cv.pdf") c3_run1.final).final = c3_run1.final :=
  ⟨(C3_no_email_amended c3_env2 "491234" "wamid.32" "cv.pdf" c3_run1.final
      rfl rfl rfl rfl rfl rfl).2.1,
   (C3_no_email_amended c3_env2 "491234" "wamid.32" "cv.pdf" c3_run1.final
      rfl rfl rfl rfl rfl rfl).1⟩

/-! ## Claim C2: atomicity of the upsert and the ledger write -/

/-- Environment of the C2 run: a fresh sender with a CV attachment and a
good parse. -/
def c2_env : EmailEnv :=
  { filter_eu_only := false, cv_text := "Jane Doe CV text"
    ai := .success (.obj [("name", .str "Jane Doe"), ("email", .str "jane@x.com")])
    ts := "20240101_", sfn := fun s => s, now := 5 }

/-- One complete, uninterrupted processing of Jane's email against the
empty store. -/
def c2_run : Run :=
  process_email c2_env "jane@x.com" "Application" "hello" ["cv.pdf"] ⟨[], [], [], 1⟩

/-- Counterexample to C2 as stated: the run commits twice; the state
persisted by the first commit already contains the candidate mutation but
no ledger entry at all for `(jane@x.com, Application)` — a reachable
post-state (processing stopping before the second commit) with the
mutation and not its idempotency marker. -/
theorem C2_counterexample :
    c2_run.commits.map (fun d => (d.candidates.length, d.email_logs.length)) = [(1, 0), (1, 1)]
    ∧ ((c2_run.commits.getD 0 c2_run.final).email_logs.filter
        (fun l => l.sender_email == "jane@x.com" && l.subject == "Application")) = []
    ∧ (c2_run.commits.getD 0 c2_run.final).candidates.map
        (fun c => c.email.beq (.str "jane@x.com")) = [true] :=
  ⟨rfl, rfl, rfl⟩

/-- C2 (amended): the candidate mutation and the ledger entry are written
in two separate transactions, the mutation committed first; an
uninterrupted run persists both (final state: one candidate, one
`success` entry), but between the two commits there is a reachable
persisted state holding the mutation without the entry. -/
theorem C2_two_commits_amended :
    c2_run.raised = false
    ∧ c2_run.final.candidates.map (fun c => c.email.beq (.str "jane@x.com")) = [true]
    ∧ c2_run.final.email_logs
        = [{ sender_email := "jane@x.com", subject := "Application"
             candidate_id := some 1, status := "success" }]
    ∧ c2_run.commits.length = 2
    ∧ (c2_run.commits.getD 0 c2_run.final).candidates.length = 1
    ∧ (c2_run.commits.getD 0 c2_run.final).email_logs.length = 0
    ∧ c2_run.sent = [.email_confirmation "jane@x.com"] :=
  ⟨rfl, rfl, rfl, rfl, rfl, rfl, rfl⟩

/-! ## Claim C1: idempotent reprocessing -/

/-- Environment of the first C1 delivery. -/
def c1_env : EmailEnv :=
  { filter_eu_only := false, cv_text := "John Doe CV"
    ai := .success (.obj [("name", .str "John Doe"), ("email", .str "john@example.com")])
    ts := "20240101_", sfn := fun s => s, now := 5 }

/-- Environment of the second, identical delivery (only the clock moved). -/
def c1_env2 : EmailEnv :=
  { filter_eu_only := false, cv_text := "John Doe CV"
    ai := .success (.obj [("name", .str "John Doe"), ("email", .str "john@example.com")])
    ts := "20240102_", sfn := fun s => s, now := 6 }

/-- First processing of the display-name sender's email. -/
def c1_run1 : Run :=
  process_email c1_env "John Doe <john@example.com>" "Application" "hi" ["cv.pdf"]
    ⟨[], [], [], 1⟩

/-- Second processing of the very same `(sender, subject)` message. -/
def c1_run2 : Run :=
  process_email c1_env2 "John Doe <john@example.com>" "Application" "hi" ["cv.pdf"]
    c1_run1.final

/-- First and second processing of the same message from a bare-address
sender (raw header equal to the cleaned address). -/
def c1_run1b : Run :=
  process_email c1_env "john@example.com" "Application" "hi" ["cv.pdf"] ⟨[], [], [], 1⟩

/-- Second delivery for the bare-address sender. -/
def c1_run2b : Run :=
  process_email c1_env2 "john@example.com" "Application" "hi" ["cv.pdf"] c1_run1b.final

/-- C1, evaluated at the failing input: the first run logs the ledger
entry under the cleaned address `john@example.com`, but the dedup check
of the second run queries the raw header `John Doe <john@example.com>`,
finds nothing, and reprocesses — it re-merges the candidate (timestamp
moves to the second run's clock), sends a second confirmation reply and
writes a second ledger entry for the same cleaned key.  For a sender
whose raw header equals the cleaned address the second run is the claimed
no-op. -/
theorem C1_dedup_key_mismatch :
    c1_run1.final.email_logs.map (fun l => (l.sender_email, l.subject, l.status))
        = [("john@example.com", "Application", "success")]
    ∧ c1_run2.sent = [.email_confirmation "john@example.com"]
    ∧ c1_run2.commits.length = 2
    ∧ c1_run2.final.email_logs.map (fun l => (l.sender_email, l.subject, l.status))
        = [("john@example.com", "Application", "success"),
           ("john@example.com", "Application", "success")]
    ∧ c1_run2.final.candidates.map (fun c => c.last_updated) = [6]
    ∧ c1_run2b.sent = []
    ∧ c1_run2b.commits = []
    ∧ c1_run2b.final.email_logs.length = 1
    ∧ c1_run2b.final.candidates.map (fun c => c.last_updated) = [5] :=
  ⟨rfl, rfl, rfl, rfl, rfl, rfl, rfl, rfl, rfl⟩

/-! ## Claim C10: the stored name of a newly created candidate -/

/-- Environment of the C10 run: the service answers with the JSON object
`{}` and the extracted text defeats every regex fallback (digits on its
only line, no email, no 10-character phone run). -/
def c10_env : EmailEnv :=
  { filter_eu_only := false, cv_text := "12345 candidate 42", ai := .success (.obj [])
    ts := "x_", sfn := fun s => s, now := 2 }

/-- Processing of Mary's email under the C10 environment. -/
def c10_run : Run :=
  process_email c10_env "Mary Major <mary@x.com>" "CV" "hi" ["cv.pdf"] ⟨[], [], [], 1⟩

/-- Counterexample to C10 as stated: the parsed profile does NOT always
contain a `name` key — when the service omits the field and the regex
fallback finds no name, the key is absent, and the sender-derived
`dict.get` default IS used: the created record's name is the sender's
display name, not a null parsed value. -/
theorem C10_counterexample :
    (jget (parse_cv_file "12345 candidate 42" (.success (.obj []))) "name").isSome = false
    ∧ c10_run.final.candidates.map (fun c => c.name.beq (.str "Mary Major")) = [true] :=
  ⟨rfl, rfl⟩

/-- C10 (amended): whenever the parsed profile does contain the `name`
key — which holds on the AI-failure path, and whenever the service
returns the field or the fallback fills it — the created record stores
exactly that value, even when it is null (the dict-get default is dead in
that case, and a null reaches the NOT NULL name column); only when the
key is absent is the sender-derived default used. -/
theorem C10_name_amended :
    (∀ (id : Nat) (cv : JObj) (sender_name clean fn subj : String) (now : Nat) (v : JValue),
      jget cv "name" = some v →
      (email_new_candidate id cv sender_name clean fn subj now).name = v)
    ∧ (∀ (id : Nat) (cv : JObj) (phone : String) (ev : JValue) (fn : String) (now : Nat)
        (v : JValue),
      jget cv "name" = some v →
      (wa_new_candidate id cv phone ev fn now).name = v)
    ∧ (∀ t : String, t ≠ "" →
      (jget (parse_cv_file t AIOutcome.failure) "name").isSome = true) := by
  refine ⟨?_, ?_, ?_⟩
  · intro id cv sender_name clean fn subj now v h
    unfold email_new_candidate
    exact dgetD_of_jget _ _ _ _ h
  · intro id cv phone ev fn now v h
    unfold wa_new_candidate
    exact dgetD_of_jget _ _ _ _ h
  · intro t ht
    unfold parse_cv_file
    rw [if_neg ht]
    dsimp only
    have hD : jget (jset (parse_cv_with_ai .failure) "text" (.str t)) "name"
        = some .null := by
      rw [jget_jset_ne _ _ _ _ (by decide)]
      rfl
    split
    · unfold fallback_fill
      rw [fallback_phone_preserves _ _ _ (by decide)]
      unfold fallback_name
      split
      · rw [jget_jset_same]
        rfl
      · rw [fallback_email_preserves _ _ _ (by decide), hD]
        rfl
    · rw [hD]
      rfl

/-- Witness for C10 (amended): a profile whose name key holds null makes
the created record's name null (the default `Bob Smith` is unused), and
the AI-failure profile always carries the name key. -/
theorem C10_name_amended_witness :
    (email_new_candidate 1 [("name", JValue.null)] "Bob Smith" "bob@x.com" "f.pdf" "Re" 0).name
        = JValue.null
    ∧ (jget (parse_cv_file "short" AIOutcome.failure) "name").isSome = true :=
  ⟨C10_name_amended.1 1 [("name", JValue.null)] "Bob Smith" "bob@x.com" "f.pdf" "Re" 0
      JValue.null rfl,
   C10_name_amended.2.2 "short" (by decide)⟩
